import Mathlib

/-!
# Verification of the 3D-stacked-panel component

Shallow embedding of the `StackedPhones` class (the later, unified
click/touch/keyboard version of the component, which the spec designates
as authoritative).  DOM state that the component reads or writes is made
explicit: the container's class list, the overlay elements with their
attributes, the log of dispatched custom events, and the registry of
event listeners (with JavaScript function identity modelled explicitly,
since `addEventListener`/`removeEventListener` match callbacks by
reference and `.bind(this)` creates a fresh function object on every
call).
-/

set_option autoImplicit false

namespace StackedPhones

/-- A JavaScript value passed to the public API (`activatePhone`,
`isPhoneActive` call `.toString()` on their argument): either a number
or a string. -/
inductive JSValue where
  | num (n : Int)
  | str (s : String)
deriving DecidableEq, Repr

/-- JavaScript `.toString()` on the values we model. -/
def JSValue.toString : JSValue → String
  | .num n => ToString.toString n
  | .str s => s

/-- `classList.contains(c)`. -/
def classListContains (cs : List String) (c : String) : Bool :=
  cs.contains c

/-- `classList.add(c)`: a DOMTokenList is a set, adding an existing
token is a no-op. -/
def classListAdd (cs : List String) (c : String) : List String :=
  if cs.contains c then cs else cs ++ [c]

/-- `classList.remove(c₁, …, cₙ)`: removes every listed token. -/
def classListRemove (cs : List String) (toRemove : List String) : List String :=
  cs.filter (fun c => !(toRemove.contains c))

/-- An overlay element created by `createClickOverlays`: its class
attribute, its `data-phone` identifier, its ARIA attributes
(`setAttribute` stores strings; `none` models an attribute never set). -/
structure Overlay where
  className : String
  dataPhone : String
  ariaLabel : String
  role : String
  tabindex : String
  ariaPressed : Option String
  ariaExpanded : Option String
deriving DecidableEq, Repr

/-- The custom events dispatched on the container by `dispatchEvent`.
`phoneActivated` carries the `phoneNumber` detail (the `instance`
back-reference is the component itself and is not part of the
observable data we track). -/
inductive Notification where
  | phoneActivated (phoneNumber : String)
  | phoneDeactivated
deriving DecidableEq, Repr

/-- The `this.config` record. -/
structure Config where
  debugMode : Bool
  enableClickOutside : Bool
  overlayVisibleWidths : List Int
  overlayLeftPositions : List Int
  enableHoverFeedback : Bool
deriving DecidableEq, Repr

/-- The literal initializer of `this.config` in the constructor. -/
def defaultConfig : Config :=
  { debugMode := false
    enableClickOutside := true
    overlayVisibleWidths := [180, 100, 100]
    overlayLeftPositions := [0, 200, 320]
    enableHoverFeedback := true }

/-- The four handler methods of the class that are used as event
callbacks. -/
inductive MethodName where
  | handleInteraction
  | handleTouchInteraction
  | handleKeyboard
  | handleClickOutside
deriving DecidableEq, Repr

/-- A JavaScript function reference used as an event callback.
`method m` is the bare method `this.m`; `bound m k` is the fresh
function object produced by the `k`-th call of `this.m.bind(this)`.
Two distinct `bind` calls yield distinct objects, and never equal the
bare method. -/
inductive FnRef where
  | method (m : MethodName)
  | bound (m : MethodName) (k : Nat)
deriving DecidableEq, Repr

/-- An event target the component attaches listeners to. -/
inductive Target where
  | overlayTarget (i : Nat)
  | documentTarget
deriving DecidableEq, Repr

/-- One registered event listener. -/
structure Listener where
  target : Target
  eventType : String
  fn : FnRef
deriving DecidableEq, Repr

/-- The observable state of one component instance together with the DOM
state it owns: the container's class list, `this.activeCard`,
`this.overlays`, the log of dispatched notifications, the listener
registry, and the count of `console.warn` diagnostics. -/
structure State where
  containerClasses : List String
  activeCard : Option String
  overlays : List Overlay
  events : List Notification
  listeners : List Listener
  warnings : Nat
  config : Config
deriving DecidableEq, Repr

/-- Construction-time data of the container argument: how many
`.phone-card` children `querySelectorAll` finds, and the container's
initial class list. -/
structure ContainerData where
  phoneCardCount : Nat
  initialClasses : List String
deriving DecidableEq, Repr

/-- A document-level click event, described by whether
`e.target.closest(".phone-stack-container")` finds a containing
stack-container element. -/
structure ClickEvent where
  insideStackContainer : Bool
deriving DecidableEq, Repr

/-- The template literal `` `phone-${phoneNumber}-active` ``. -/
def cardClass (phoneNumber : String) : String :=
  "phone-" ++ phoneNumber ++ "-active"

/-- `getPhoneNumbers()`. -/
def getPhoneNumbers : List String := ["1", "2", "3"]

/-- `dispatchEvent(eventName, detail)`: dispatches a bubbling custom
event on the container; we record it in the log. -/
def dispatchEvent (s : State) (n : Notification) : State :=
  { s with events := s.events ++ [n] }

/-- The body of the `forEach((overlay, index) => …)` loop of
`updateAriaStates`, recursing with an explicit index. -/
def setAriaFrom (activePhoneNumber : Option String) : Nat → List Overlay → List Overlay
  | _, [] => []
  | index, ov :: rest =>
    let phoneNumber := ToString.toString (index + 1)
    let isActive : Bool := activePhoneNumber == some phoneNumber
    { ov with
      ariaPressed := some (ToString.toString isActive)
      ariaExpanded := some (ToString.toString isActive) } :: setAriaFrom activePhoneNumber (index + 1) rest

/-- `updateAriaStates(activePhoneNumber)`. -/
def updateAriaStates (activePhoneNumber : Option String) (s : State) : State :=
  { s with overlays := setAriaFrom activePhoneNumber 0 s.overlays }

/-- `deactivateAll()`: removes the three active marker classes, clears
`this.activeCard`, resets ARIA states, and dispatches
`phoneDeactivated`. -/
def deactivateAll (s : State) : State :=
  let s1 := { s with
    containerClasses :=
      classListRemove s.containerClasses ["phone-1-active", "phone-2-active", "phone-3-active"]
    activeCard := none }
  let s2 := updateAriaStates none s1
  dispatchEvent s2 .phoneDeactivated

/-- `togglePhone(phoneNumber)`. -/
def togglePhone (s : State) (phoneNumber : String) : State :=
  let cc := cardClass phoneNumber
  if classListContains s.containerClasses cc then
    deactivateAll s
  else
    let s1 := deactivateAll s
    let s2 := { s1 with
      containerClasses := classListAdd s1.containerClasses cc
      activeCard := some phoneNumber }
    let s3 := updateAriaStates (some phoneNumber) s2
    dispatchEvent s3 (.phoneActivated phoneNumber)

/-- `handleClickOutside(e)`: deactivates when the click target is not
inside a `.phone-stack-container` and a card is active. -/
def handleClickOutside (s : State) (e : ClickEvent) : State :=
  if !e.insideStackContainer && s.activeCard.isSome then
    deactivateAll s
  else
    s

/-- A click event arriving at `document`: the bound `handleClickOutside`
callback runs only while it is registered in the listener registry. -/
def documentClick (s : State) (e : ClickEvent) : State :=
  if s.listeners.contains ⟨.documentTarget, "click", .bound .handleClickOutside 0⟩ then
    handleClickOutside s e
  else
    s

/-- `activatePhone(phoneNumber)`. -/
def activatePhone (s : State) (phoneNumber : JSValue) : State :=
  togglePhone s phoneNumber.toString

/-- `getActivePhone()`. -/
def getActivePhone (s : State) : Option String :=
  s.activeCard

/-- `isPhoneActive(phoneNumber)`: `this.activeCard === phoneNumber.toString()`
(strict equality against `null` is false). -/
def isPhoneActive (s : State) (phoneNumber : JSValue) : Bool :=
  s.activeCard == some phoneNumber.toString

/-- `cycleToNext()`: `Array.prototype.indexOf` yields `-1` when
`this.activeCard` is `null` or not among the phone numbers. -/
def cycleToNext (s : State) : State :=
  let phones := getPhoneNumbers
  let currentIndex : Int :=
    match s.activeCard with
    | none => -1
    | some c =>
      match phones.findIdx? (fun p => p == c) with
      | some i => (i : Int)
      | none => -1
  let nextIndex := (currentIndex + 1) % (phones.length : Int)
  if currentIndex = -1 then
    activatePhone s (.str (phones.getD 0 ""))
  else
    activatePhone s (.str (phones.getD nextIndex.toNat ""))

/-- `createClickOverlays()`: appends the three overlays (fixed
`overlayConfigs`) to the container, setting `data-phone`, `aria-label`,
`role` and `tabindex`; the `fullWidth` flag of each config entry is
never read afterwards. -/
def createClickOverlays (s : State) : State :=
  let mk : String → String → Overlay := fun cls n =>
    { className := cls
      dataPhone := n
      ariaLabel := "Toggle phone " ++ n
      role := "button"
      tabindex := "0"
      ariaPressed := none
      ariaExpanded := none }
  { s with overlays := s.overlays ++
      [mk "click-overlay click-overlay-1" "1",
       mk "click-overlay click-overlay-2" "2",
       mk "click-overlay click-overlay-3" "3"] }

/-- `bindEvents()`: each overlay gets `click`, `touchend` and `keydown`
listeners, every one a fresh `.bind(this)` wrapper; when
`config.enableClickOutside` holds, a document-level `click` listener
(also a fresh bound wrapper) is added. -/
def bindEvents (s : State) : State :=
  let perOverlay : Nat → List Listener := fun i =>
    [⟨.overlayTarget i, "click", .bound .handleInteraction i⟩,
     ⟨.overlayTarget i, "touchend", .bound .handleTouchInteraction i⟩,
     ⟨.overlayTarget i, "keydown", .bound .handleKeyboard i⟩]
  let ls := s.listeners ++ (List.range s.overlays.length).flatMap perOverlay
  let ls2 := if s.config.enableClickOutside then
      ls ++ [⟨.documentTarget, "click", .bound .handleClickOutside 0⟩]
    else ls
  { s with listeners := ls2 }

/-- `enableDebugMode()` only mutates inline styles of the overlays and
logs to the console; none of that state is observable through the data
model, so it is the identity here. -/
def enableDebugMode (s : State) : State := s

/-- `init()`. -/
def init (s : State) : State :=
  let s1 := createClickOverlays s
  let s2 := bindEvents s1
  if s2.config.debugMode then enableDebugMode s2 else s2

/-- The field initializations at the top of the constructor, before the
guard. -/
def initialState (cd : ContainerData) (cfg : Config) : State :=
  { containerClasses := cd.initialClasses
    activeCard := none
    overlays := []
    events := []
    listeners := []
    warnings := 0
    config := cfg }

/-- The state a constructed instance ends in, for a non-null container:
with zero `.phone-card` children the constructor warns once and returns
before `init()`; otherwise it runs `init()`.  The `config` record is a
parameter so that the configuration surface the spec describes can be
stated; the source initializer is `defaultConfig`. -/
def constructState (cd : ContainerData) (cfg : Config) : State :=
  let s0 := initialState cd cfg
  if cd.phoneCardCount = 0 then
    { s0 with warnings := s0.warnings + 1 }
  else
    init s0

/-- Result of running the constructor: `thrown` models a TypeError
propagating to the caller. -/
inductive ConstructResult where
  | thrown
  | made (s : State)
deriving DecidableEq, Repr

/-- `new StackedPhones(container)` with an explicit config record.
With `container` null, `container.querySelectorAll(".phone-card")` on
the second line throws a TypeError before the `!container` guard is
ever reached. -/
def construct (container : Option ContainerData) (cfg : Config) : ConstructResult :=
  match container with
  | none => .thrown
  | some cd => .made (constructState cd cfg)

/-- `new StackedPhones(container)` exactly as the source constructs it,
with the literal config initializer. -/
def newStackedPhones (container : Option ContainerData) : ConstructResult :=
  construct container defaultConfig

/-- `removeEventListener(type, fn)` on a target: detaches the listener
whose callback is the same function object; a callback that was never
registered matches nothing. -/
def removeEventListener (ls : List Listener) (t : Target) (ev : String) (f : FnRef) : List Listener :=
  ls.filter (fun l => !(l.target == t && l.eventType == ev && l.fn == f))

/-- `destroy()`: for each overlay, calls `removeEventListener` with the
bare methods `this.handleInteraction`, `this.handleTouchInteraction`,
`this.handleKeyboard` (not the bound wrappers that were registered),
removes the overlay element, then (when `enableClickOutside`) calls
`document.removeEventListener` with the bare `this.handleClickOutside`,
and finally clears `this.overlays` and `this.activeCard`. -/
def destroy (s : State) : State :=
  let ls := (List.range s.overlays.length).foldl
    (fun acc i =>
      let a1 := removeEventListener acc (.overlayTarget i) "click" (.method .handleInteraction)
      let a2 := removeEventListener a1 (.overlayTarget i) "touchend" (.method .handleTouchInteraction)
      removeEventListener a2 (.overlayTarget i) "keydown" (.method .handleKeyboard))
    s.listeners
  let ls2 := if s.config.enableClickOutside then
      removeEventListener ls .documentTarget "click" (.method .handleClickOutside)
    else ls
  { s with listeners := ls2, overlays := [], activeCard := none }

/-! ## Properties of the data model -/

/-- The three marker classes `deactivateAll` removes. -/
def markerClasses : List String :=
  ["phone-1-active", "phone-2-active", "phone-3-active"]

/-- The stored selection is `none` or exactly one identifier of the
finite item set. -/
def validSelection (s : State) : Prop :=
  s.activeCard = none ∨ ∃ id ∈ getPhoneNumbers, s.activeCard = some id

/-- How many of the three presentation markers the container carries. -/
def markerCount (s : State) : Nat :=
  (getPhoneNumbers.filter (fun id => classListContains s.containerClasses (cardClass id))).length

/-- Each presentation marker is on the container exactly when its item
is the stored selection. -/
def markerConsistent (s : State) : Prop :=
  ∀ id ∈ getPhoneNumbers, (cardClass id ∈ s.containerClasses ↔ s.activeCard = some id)

/-- The overlays are the three created at init, in order, keyed by
their `data-phone` identifiers. -/
def wellFormedOverlays (s : State) : Prop :=
  s.overlays.map Overlay.dataPhone = ["1", "2", "3"]

/-- Every overlay's pressed/expanded flag is the string form of whether
its identifier equals the stored selection. -/
def ariaConsistent (s : State) : Prop :=
  ∀ ov ∈ s.overlays,
    ov.ariaPressed = some (ToString.toString (s.activeCard == some ov.dataPhone)) ∧
    ov.ariaExpanded = some (ToString.toString (s.activeCard == some ov.dataPhone))

/-! ## Basic lemmas -/

theorem classListContains_iff {cs : List String} {c : String} :
    classListContains cs c = true ↔ c ∈ cs :=
  List.elem_iff

theorem mem_getPhoneNumbers {id : String} (h : id ∈ getPhoneNumbers) :
    id = "1" ∨ id = "2" ∨ id = "3" := by
  simpa [getPhoneNumbers] using h

theorem deactivateAll_activeCard (s : State) : (deactivateAll s).activeCard = none := rfl

theorem deactivateAll_events (s : State) :
    (deactivateAll s).events = s.events ++ [.phoneDeactivated] := rfl

theorem deactivateAll_classes (s : State) :
    (deactivateAll s).containerClasses = classListRemove s.containerClasses markerClasses := rfl

theorem deactivateAll_listeners (s : State) : (deactivateAll s).listeners = s.listeners := rfl

theorem mem_classListRemove {cs toRemove : List String} {c : String} :
    c ∈ classListRemove cs toRemove ↔ c ∈ cs ∧ toRemove.contains c = false := by
  simp [classListRemove, List.mem_filter]

theorem cardClass_not_mem_deactivateAll (s : State) {id : String}
    (h : id ∈ getPhoneNumbers) :
    cardClass id ∉ (deactivateAll s).containerClasses := by
  rw [deactivateAll_classes]
  rcases mem_getPhoneNumbers h with h1 | h1 | h1 <;> subst h1 <;>
    simp [mem_classListRemove, markerClasses, cardClass]

/-- The class list `togglePhone` leaves on the container. -/
theorem togglePhone_classes (s : State) (id : String) :
    (togglePhone s id).containerClasses =
      if classListContains s.containerClasses (cardClass id) = true then
        classListRemove s.containerClasses markerClasses
      else
        classListRemove s.containerClasses markerClasses ++ [cardClass id] := by
  by_cases h : classListContains s.containerClasses (cardClass id) = true
  · simp [togglePhone, h, deactivateAll_classes]
  · have hmem : cardClass id ∉ s.containerClasses := fun hc =>
      h (classListContains_iff.mpr hc)
    have hfil : cardClass id ∉ classListRemove s.containerClasses markerClasses := fun hc =>
      hmem (mem_classListRemove.mp hc).1
    simp [togglePhone, h, deactivateAll, dispatchEvent, updateAriaStates, classListAdd,
      markerClasses] at hfil ⊢
    simp [hfil]

theorem togglePhone_activeCard (s : State) (id : String) :
    (togglePhone s id).activeCard =
      if classListContains s.containerClasses (cardClass id) = true then none
      else some id := by
  by_cases h : classListContains s.containerClasses (cardClass id) = true <;>
    simp [togglePhone, h, deactivateAll, dispatchEvent, updateAriaStates]

theorem togglePhone_events (s : State) (id : String) :
    (togglePhone s id).events =
      if classListContains s.containerClasses (cardClass id) = true then
        s.events ++ [.phoneDeactivated]
      else
        s.events ++ [.phoneDeactivated, .phoneActivated id] := by
  by_cases h : classListContains s.containerClasses (cardClass id) = true <;>
    simp [togglePhone, h, deactivateAll, dispatchEvent, updateAriaStates]

theorem togglePhone_listeners (s : State) (id : String) :
    (togglePhone s id).listeners = s.listeners := by
  by_cases h : classListContains s.containerClasses (cardClass id) = true <;>
    simp [togglePhone, h, deactivateAll, dispatchEvent, updateAriaStates]

theorem togglePhone_overlays (s : State) (id : String) :
    (togglePhone s id).overlays =
      if classListContains s.containerClasses (cardClass id) = true then
        setAriaFrom none 0 s.overlays
      else
        setAriaFrom (some id) 0 (setAriaFrom none 0 s.overlays) := by
  by_cases h : classListContains s.containerClasses (cardClass id) = true <;>
    simp [togglePhone, h, deactivateAll, dispatchEvent, updateAriaStates]

theorem deactivateAll_overlays (s : State) :
    (deactivateAll s).overlays = setAriaFrom none 0 s.overlays := rfl

/-- Markers on the container after `togglePhone`, for item identifiers:
present exactly for the toggled item, when the toggle activated it. -/
theorem togglePhone_marker_mem (s : State) {id id' : String}
    (h : id ∈ getPhoneNumbers) (h' : id' ∈ getPhoneNumbers) :
    cardClass id' ∈ (togglePhone s id).containerClasses ↔
      classListContains s.containerClasses (cardClass id) = false ∧ id' = id := by
  have hrm : cardClass id' ∉ classListRemove s.containerClasses markerClasses := by
    rcases mem_getPhoneNumbers h' with e | e | e <;> subst e <;>
      simp [mem_classListRemove, markerClasses, cardClass]
  rw [togglePhone_classes]
  by_cases hc : classListContains s.containerClasses (cardClass id) = true
  · rw [if_pos hc]
    simp [hrm, hc]
  · rw [if_neg hc]
    rw [Bool.not_eq_true] at hc
    constructor
    · intro hm
      rcases List.mem_append.mp hm with hm | hm
      · exact absurd hm hrm
      · have heq : cardClass id' = cardClass id := List.mem_singleton.mp hm
        refine ⟨hc, ?_⟩
        rcases mem_getPhoneNumbers h with a | a | a <;>
          rcases mem_getPhoneNumbers h' with b | b | b <;>
            subst a <;> subst b <;> simp_all [cardClass]
    · rintro ⟨-, rfl⟩
      exact List.mem_append.mpr (Or.inr (List.mem_singleton.mpr rfl))

theorem markerConsistent_deactivateAll (s : State) :
    markerConsistent (deactivateAll s) := by
  intro id h
  simp only [deactivateAll_activeCard]
  constructor
  · intro hm
    exact absurd hm (cardClass_not_mem_deactivateAll s h)
  · intro hcon
    exact absurd hcon (by simp)

theorem markerConsistent_togglePhone (s : State) {id : String}
    (h : id ∈ getPhoneNumbers) :
    markerConsistent (togglePhone s id) := by
  intro id' h'
  rw [togglePhone_marker_mem s h h', togglePhone_activeCard]
  by_cases hc : classListContains s.containerClasses (cardClass id) = true
  · simp [hc]
  · rw [Bool.not_eq_true] at hc
    simp [hc, eq_comm]

/-- At most one of the three presentation markers sits on the
container. -/
def atMostOneMarker (s : State) : Prop :=
  ∀ id ∈ getPhoneNumbers, ∀ id' ∈ getPhoneNumbers,
    cardClass id ∈ s.containerClasses → cardClass id' ∈ s.containerClasses → id = id'

theorem atMostOneMarker_of_markerConsistent {s : State}
    (h : markerConsistent s) : atMostOneMarker s := by
  intro id hid id' hid' hm hm'
  have e1 := (h id hid).mp hm
  have e2 := (h id' hid').mp hm'
  rw [e1] at e2
  exact Option.some_inj.mp e2

theorem validSelection_togglePhone (s : State) {id : String}
    (h : id ∈ getPhoneNumbers) :
    validSelection (togglePhone s id) := by
  unfold validSelection
  rw [togglePhone_activeCard]
  by_cases hc : classListContains s.containerClasses (cardClass id) = true
  · rw [if_pos hc]
    exact Or.inl rfl
  · rw [if_neg hc]
    exact Or.inr ⟨id, h, rfl⟩

/-! ## ARIA state lemmas -/

theorem setAriaFrom_map_dataPhone (a : Option String) (n : Nat) (l : List Overlay) :
    (setAriaFrom a n l).map Overlay.dataPhone = l.map Overlay.dataPhone := by
  induction l generalizing n with
  | nil => rfl
  | cons ov rest ih => simp [setAriaFrom, ih]

theorem wellFormed_destruct {s : State} (h : wellFormedOverlays s) :
    ∃ o1 o2 o3 : Overlay, s.overlays = [o1, o2, o3] ∧
      o1.dataPhone = "1" ∧ o2.dataPhone = "2" ∧ o3.dataPhone = "3" := by
  unfold wellFormedOverlays at h
  rcases hl : s.overlays with - | ⟨a, - | ⟨b, - | ⟨c, - | ⟨d, t⟩⟩⟩⟩ <;>
    rw [hl] at h <;> simp at h
  exact ⟨a, b, c, rfl, h.1, h.2.1, h.2.2⟩

theorem setAriaFrom_three (a : Option String) (o1 o2 o3 : Overlay) :
    setAriaFrom a 0 [o1, o2, o3] =
      [{ o1 with ariaPressed := some (ToString.toString (a == some "1"))
                 ariaExpanded := some (ToString.toString (a == some "1")) },
       { o2 with ariaPressed := some (ToString.toString (a == some "2"))
                 ariaExpanded := some (ToString.toString (a == some "2")) },
       { o3 with ariaPressed := some (ToString.toString (a == some "3"))
                 ariaExpanded := some (ToString.toString (a == some "3")) }] := by
  have e1 : ToString.toString (0 + 1 : Nat) = "1" := rfl
  have e2 : ToString.toString (1 + 1 : Nat) = "2" := rfl
  have e3 : ToString.toString (2 + 1 : Nat) = "3" := rfl
  simp [setAriaFrom, e1, e2, e3]

theorem ariaConsistent_togglePhone (s : State) (id : String)
    (hwf : wellFormedOverlays s) :
    ariaConsistent (togglePhone s id) := by
  obtain ⟨o1, o2, o3, hov, h1, h2, h3⟩ := wellFormed_destruct hwf
  intro ov hmem
  rw [togglePhone_overlays, hov] at hmem
  rw [togglePhone_activeCard]
  by_cases hc : classListContains s.containerClasses (cardClass id) = true
  · rw [if_pos hc] at hmem ⊢
    rw [setAriaFrom_three] at hmem
    simp only [List.mem_cons, List.not_mem_nil, or_false] at hmem
    rcases hmem with rfl | rfl | rfl <;> simp [h1, h2, h3]
  · rw [if_neg hc] at hmem ⊢
    rw [setAriaFrom_three, setAriaFrom_three] at hmem
    simp only [List.mem_cons, List.not_mem_nil, or_false] at hmem
    rcases hmem with rfl | rfl | rfl <;> simp [h1, h2, h3]

theorem ariaConsistent_deactivateAll (s : State)
    (hwf : wellFormedOverlays s) :
    ariaConsistent (deactivateAll s) := by
  obtain ⟨o1, o2, o3, hov, h1, h2, h3⟩ := wellFormed_destruct hwf
  intro ov hmem
  rw [deactivateAll_overlays, hov, setAriaFrom_three] at hmem
  rw [deactivateAll_activeCard]
  simp only [List.mem_cons, List.not_mem_nil, or_false] at hmem
  rcases hmem with rfl | rfl | rfl <;> simp [h1, h2, h3]

theorem wellFormedOverlays_togglePhone (s : State) (id : String)
    (hwf : wellFormedOverlays s) :
    wellFormedOverlays (togglePhone s id) := by
  unfold wellFormedOverlays at hwf ⊢
  rw [togglePhone_overlays]
  by_cases hc : classListContains s.containerClasses (cardClass id) = true
  · rw [if_pos hc, setAriaFrom_map_dataPhone]
    exact hwf
  · rw [if_neg hc, setAriaFrom_map_dataPhone, setAriaFrom_map_dataPhone]
    exact hwf

/-! ## Event dispatch -/

/-- The externally triggerable operations the claims quantify over: a
unified toggle (reached identically from pointer click, touch end and
keyboard activation on an overlay, all of which extract `data-phone`
and call `togglePhone`), and a document-level click. -/
inductive Op where
  | toggle (phoneNumber : String)
  | docClick (e : ClickEvent)
deriving DecidableEq, Repr

/-- One input event processed by the component. -/
def stepOp (s : State) : Op → State
  | .toggle id => togglePhone s id
  | .docClick e => documentClick s e

/-- A whole synchronous sequence of input events. -/
def run (s : State) (ops : List Op) : State :=
  ops.foldl stepOp s

theorem handleClickOutside_listeners (s : State) (e : ClickEvent) :
    (handleClickOutside s e).listeners = s.listeners := by
  unfold handleClickOutside
  by_cases h : (!e.insideStackContainer && s.activeCard.isSome) = true
  · rw [if_pos h, deactivateAll_listeners]
  · rw [if_neg h]

theorem documentClick_listeners (s : State) (e : ClickEvent) :
    (documentClick s e).listeners = s.listeners := by
  unfold documentClick
  by_cases h : s.listeners.contains
      ⟨.documentTarget, "click", .bound .handleClickOutside 0⟩ = true
  · rw [if_pos h, handleClickOutside_listeners]
  · rw [if_neg h]

theorem stepOp_listeners (s : State) (op : Op) :
    (stepOp s op).listeners = s.listeners := by
  cases op with
  | toggle id => exact togglePhone_listeners s id
  | docClick e => exact documentClick_listeners s e

theorem run_listeners (s : State) (ops : List Op) :
    (run s ops).listeners = s.listeners := by
  induction ops generalizing s with
  | nil => rfl
  | cons op rest ih => rw [run, List.foldl_cons, ← run, ih, stepOp_listeners]

/-- Whether the document-level dismissal listener is registered on a
freshly constructed instance: exactly when the config enables
outside-click dismissal. -/
theorem constructState_doc_listener (cd : ContainerData) (cfg : Config)
    (h : cd.phoneCardCount ≠ 0) :
    (constructState cd cfg).listeners.contains
        ⟨.documentTarget, "click", .bound .handleClickOutside 0⟩ =
      cfg.enableClickOutside := by
  unfold constructState
  rw [if_neg h]
  cases hco : cfg.enableClickOutside <;>
    simp [init, bindEvents, createClickOverlays, initialState, enableDebugMode, hco]

/-! ## Concrete states used to exercise the theorems -/

/-- A typical container: three `.phone-card` children, carrying the
`phone-stack-container` class. -/
def demoContainer : ContainerData :=
  { phoneCardCount := 3, initialClasses := ["phone-stack-container"] }

/-- A freshly constructed instance on `demoContainer` with the source's
literal config. -/
def demoState : State := constructState demoContainer defaultConfig

/-- `demoState` after activating card 1: the state `Active("1")`. -/
def activeOneState : State := togglePhone demoState "1"

/-- A container with zero `.phone-card` children. -/
def zeroCardContainer : ContainerData :=
  { phoneCardCount := 0, initialClasses := ["phone-stack-container"] }

/-- The instance the constructor leaves behind for a zero-card
container. -/
def inertState : State := constructState zeroCardContainer defaultConfig

/-- The source config with outside-click dismissal turned off. -/
def noDismissConfig : Config :=
  { defaultConfig with enableClickOutside := false }

theorem markerConsistent_demoState : markerConsistent demoState := by
  intro id h
  fin_cases h <;>
    simp [demoState, constructState, demoContainer, init, bindEvents,
      createClickOverlays, initialState, defaultConfig, cardClass]

/-- Toggling an item different from the stored selection of a
marker-consistent state activates it. -/
theorem togglePhone_activeCard_of_other (s : State) {next : String}
    (hnext : next ∈ getPhoneNumbers) (hmc : markerConsistent s)
    (hne : s.activeCard ≠ some next) :
    (togglePhone s next).activeCard = some next := by
  have hc : ¬classListContains s.containerClasses (cardClass next) = true := fun hcon =>
    hne ((hmc next hnext).mp (classListContains_iff.mp hcon))
  rw [togglePhone_activeCard, if_neg hc]

theorem togglePhone_not_contains_of_other (s : State) {next : String}
    (hnext : next ∈ getPhoneNumbers) (hmc : markerConsistent s)
    (hne : s.activeCard ≠ some next) :
    ¬classListContains s.containerClasses (cardClass next) = true := fun hcon =>
  hne ((hmc next hnext).mp (classListContains_iff.mp hcon))

theorem activatePhone_good (s : State) (v : JSValue)
    (h : v.toString ∈ getPhoneNumbers) :
    validSelection (activatePhone s v) ∧ atMostOneMarker (activatePhone s v) :=
  ⟨validSelection_togglePhone s h,
   atMostOneMarker_of_markerConsistent (markerConsistent_togglePhone s h)⟩

/-! ## The claims -/

/-- C1: for every sequence of activation operations
(`togglePhone`/`activatePhone` with item-identifier arguments, i.e.
arguments whose string form lies in the fixed item set `{"1","2","3"}`),
after every transition the stored active selection is `none` or exactly
one identifier of the item set, and the container carries at most one of
the three presentation marker classes.  Stated over an arbitrary
starting state, so it holds after every prefix of the sequence. -/
theorem claim1_mutual_exclusion (s : State) (args : List JSValue)
    (hne : args ≠ [])
    (hargs : ∀ v ∈ args, v.toString ∈ getPhoneNumbers) :
    validSelection (args.foldl activatePhone s) ∧
      atMostOneMarker (args.foldl activatePhone s) := by
  induction args generalizing s with
  | nil => exact absurd rfl hne
  | cons v rest ih =>
    rw [List.foldl_cons]
    rcases hrest : rest with - | ⟨w, t⟩
    · rw [List.foldl_nil]
      exact activatePhone_good s v (hargs v (List.mem_cons_self v rest))
    · rw [← hrest]
      refine ih (activatePhone s v) ?_ ?_
      · rw [hrest]
        exact List.cons_ne_nil w t
      · intro u hu
        exact hargs u (List.mem_cons_of_mem v hu)

theorem claim1_witness :
    validSelection ([JSValue.num 1, JSValue.str "2"].foldl activatePhone demoState) ∧
      atMostOneMarker ([JSValue.num 1, JSValue.str "2"].foldl activatePhone demoState) :=
  claim1_mutual_exclusion demoState [JSValue.num 1, JSValue.str "2"]
    (by decide) (by decide)

/-- C2 counterexample: from `Active("1")`, activating item "2" does
emit a `phoneDeactivated` notification before the `phoneActivated`
one (the implementation first runs `deactivateAll`, which dispatches
it), refuting the claim that no deactivated notification is emitted. -/
theorem claim2_counterexample :
    getActivePhone (togglePhone activeOneState "2") = some "2" ∧
    (togglePhone activeOneState "2").events.drop activeOneState.events.length =
      [.phoneDeactivated, .phoneActivated "2"] :=
  ⟨rfl, rfl⟩

/-- C2 (amended): from `Active(X)`, activating `Y ≠ X` ends in
`Active(Y)`: `getActivePhone()` returns `Y`, `X`'s pressed flag is
`"false"` and `Y`'s is `"true"`, and exactly one `activated`
notification carrying `Y` is emitted — but it is preceded by one
`deactivated` notification, because the implementation deactivates all
cards (an intermediate Idle step) before activating `Y`. -/
theorem claim2_switch_direct (s : State) (X Y : String)
    (hwf : wellFormedOverlays s) (hmc : markerConsistent s)
    (hact : s.activeCard = some X) (hY : Y ∈ getPhoneNumbers)
    (hne : X ≠ Y) :
    getActivePhone (togglePhone s Y) = some Y ∧
    (togglePhone s Y).events = s.events ++ [.phoneDeactivated, .phoneActivated Y] ∧
    (∀ ov ∈ (togglePhone s Y).overlays,
      (ov.dataPhone = X → ov.ariaPressed = some "false") ∧
      (ov.dataPhone = Y → ov.ariaPressed = some "true")) := by
  have hneact : s.activeCard ≠ some Y := by
    rw [hact]
    intro hcon
    exact hne (Option.some_inj.mp hcon)
  have hc := togglePhone_not_contains_of_other s hY hmc hneact
  have hacv : (togglePhone s Y).activeCard = some Y :=
    togglePhone_activeCard_of_other s hY hmc hneact
  refine ⟨hacv, ?_, ?_⟩
  · rw [togglePhone_events, if_neg hc]
  · intro ov hov
    have haria := ariaConsistent_togglePhone s Y hwf ov hov
    constructor
    · intro hd
      rw [haria.1, hacv, hd]
      have hYX : (Y == X) = false := beq_eq_false_iff_ne.mpr (Ne.symm hne)
      simp [hYX]
      rfl
    · intro hd
      rw [haria.1, hacv, hd]
      simp
      rfl

theorem claim2_witness :
    getActivePhone (togglePhone activeOneState "2") = some "2" ∧
    (togglePhone activeOneState "2").events =
      activeOneState.events ++ [.phoneDeactivated, .phoneActivated "2"] ∧
    (∀ ov ∈ (togglePhone activeOneState "2").overlays,
      (ov.dataPhone = "1" → ov.ariaPressed = some "false") ∧
      (ov.dataPhone = "2" → ov.ariaPressed = some "true")) :=
  claim2_switch_direct activeOneState "1" "2" rfl
    (markerConsistent_togglePhone demoState (by decide)) rfl (by decide) (by decide)

/-- C3: from a marker-consistent Idle state, activating item `X` twice
toggles back off: the stored selection is `none` afterwards and the
second activation emits exactly one `deactivated` notification. -/
theorem claim3_toggle_off (s : State) (X : String)
    (hX : X ∈ getPhoneNumbers) (hidle : s.activeCard = none)
    (hmc : markerConsistent s) :
    getActivePhone (activatePhone (activatePhone s (.str X)) (.str X)) = none ∧
    (activatePhone (activatePhone s (.str X)) (.str X)).events =
      (activatePhone s (.str X)).events ++ [.phoneDeactivated] := by
  have hneact : s.activeCard ≠ some X := by rw [hidle]; exact fun h => Option.noConfusion h
  have hc1 := togglePhone_not_contains_of_other s hX hmc hneact
  show getActivePhone (togglePhone (togglePhone s X) X) = none ∧
    (togglePhone (togglePhone s X) X).events = (togglePhone s X).events ++ [.phoneDeactivated]
  have hc2 : classListContains (togglePhone s X).containerClasses (cardClass X) = true := by
    rw [togglePhone_classes, if_neg hc1]
    exact classListContains_iff.mpr
      (List.mem_append.mpr (Or.inr (List.mem_singleton.mpr rfl)))
  constructor
  · show (togglePhone (togglePhone s X) X).activeCard = none
    rw [togglePhone_activeCard, if_pos hc2]
  · rw [togglePhone_events, if_pos hc2]

theorem claim3_witness :
    getActivePhone (activatePhone (activatePhone demoState (.str "1")) (.str "1")) = none ∧
    (activatePhone (activatePhone demoState (.str "1")) (.str "1")).events =
      (activatePhone demoState (.str "1")).events ++ [.phoneDeactivated] :=
  claim3_toggle_off demoState "1" (by decide) rfl markerConsistent_demoState

/-- The state after destroying an instance that had card 1 active and
then calling the public `activatePhone(2)` on the destroyed instance. -/
def postDestroyState : State := activatePhone (destroy activeOneState) (.num 2)

/-- C4: `destroy()` detaches nothing.  Every `addEventListener` call in
`bindEvents` registered a fresh `.bind(this)` wrapper, while `destroy`
passes the bare unbound methods to `removeEventListener`, which
therefore matches no registered callback: the listener registry of a
constructed instance (9 overlay listeners plus the document-level
dismissal listener) is unchanged by `destroy`.  Consequently the
document-level click listener is still live: after `destroy()` followed
by `activatePhone(2)`, an outside click still mutates state and emits a
`deactivated` notification. -/
theorem claim4_destroy_leaves_listeners :
    (destroy activeOneState).listeners = activeOneState.listeners ∧
    activeOneState.listeners.length = 10 ∧
    (destroy activeOneState).listeners.contains
      ⟨.documentTarget, "click", .bound .handleClickOutside 0⟩ = true ∧
    postDestroyState.activeCard = some "2" ∧
    (documentClick postDestroyState ⟨false⟩).activeCard = none ∧
    (documentClick postDestroyState ⟨false⟩).events =
      postDestroyState.events ++ [.phoneDeactivated] :=
  ⟨rfl, rfl, rfl, rfl, rfl, rfl⟩

/-- C5 counterexample: on the instance constructed against a zero-card
container, `activatePhone("1")` is not a no-op: it changes the stored
selection from `none` to `"1"`, adds the presentation marker to the
container, and emits notifications. -/
theorem claim5_counterexample :
    getActivePhone inertState = none ∧
    getActivePhone (activatePhone inertState (.str "1")) = some "1" ∧
    (activatePhone inertState (.str "1")).events =
      [.phoneDeactivated, .phoneActivated "1"] ∧
    (activatePhone inertState (.str "1")).containerClasses =
      ["phone-stack-container", "phone-1-active"] :=
  ⟨rfl, rfl, rfl, rfl⟩

/-- C5 (amended): construction against a non-null container with zero
matching card children emits exactly one diagnostic warning and skips
initialization, so the instance has no overlays and no listeners and
`getActivePhone()` returns `none`; but the public operations are not
no-ops: `activatePhone(X)` still applies the presentation marker to the
container, sets the stored selection to `X`, and emits
notifications. -/
theorem claim5_inert_construction :
    newStackedPhones (some zeroCardContainer) = .made inertState ∧
    inertState.warnings = 1 ∧
    inertState.overlays = [] ∧
    inertState.listeners = [] ∧
    getActivePhone inertState = none ∧
    inertState.events = [] ∧
    getActivePhone (activatePhone inertState (.str "1")) = some "1" ∧
    (activatePhone inertState (.str "1")).events =
      [.phoneDeactivated, .phoneActivated "1"] :=
  ⟨rfl, rfl, rfl, rfl, rfl, rfl, rfl, rfl⟩

/-- C6: construction with a missing (null) container does let an
exception escape: `container.querySelectorAll(".phone-card")` on the
constructor's second line throws a TypeError before the
`!container` guard — written precisely to handle this case — can run.
A non-null container (even with zero cards) constructs normally. -/
theorem claim6_null_container_throws :
    newStackedPhones none = .thrown ∧
    newStackedPhones (some demoContainer) = .made demoState ∧
    newStackedPhones (some zeroCardContainer) = .made inertState :=
  ⟨rfl, rfl, rfl⟩

theorem cycleToNext_eq_of_none (s : State) (h : s.activeCard = none) :
    cycleToNext s = activatePhone s (.str "1") := by
  unfold cycleToNext
  rw [h]
  simp [getPhoneNumbers]

theorem cycleToNext_eq_of_one (s : State) (h : s.activeCard = some "1") :
    cycleToNext s = activatePhone s (.str "2") := by
  unfold cycleToNext
  rw [h]
  have e : (["1", "2", "3"] : List String).findIdx? (fun p => p == "1") = some 0 := by decide
  simp [getPhoneNumbers, e]

theorem cycleToNext_eq_of_two (s : State) (h : s.activeCard = some "2") :
    cycleToNext s = activatePhone s (.str "3") := by
  unfold cycleToNext
  rw [h]
  have e : (["1", "2", "3"] : List String).findIdx? (fun p => p == "2") = some 1 := by decide
  simp [getPhoneNumbers, e]

theorem cycleToNext_eq_of_three (s : State) (h : s.activeCard = some "3") :
    cycleToNext s = activatePhone s (.str "1") := by
  unfold cycleToNext
  rw [h]
  have e : (["1", "2", "3"] : List String).findIdx? (fun p => p == "3") = some 2 := by decide
  simp [getPhoneNumbers, e]

/-- C7: `cycleToNext()` activates the first configured item ("1") from
Idle; from `Active(X)` it activates the next item of the fixed order
`["1","2","3"]`, wrapping from "3" back to "1" — so repeated calls
visit all items in order.  Stated for marker-consistent states (the
container marker agrees with the stored selection, as after any
completed transition). -/
theorem claim7_cycleToNext (s : State) (hmc : markerConsistent s) :
    (s.activeCard = none → getActivePhone (cycleToNext s) = some "1") ∧
    (s.activeCard = some "1" → getActivePhone (cycleToNext s) = some "2") ∧
    (s.activeCard = some "2" → getActivePhone (cycleToNext s) = some "3") ∧
    (s.activeCard = some "3" → getActivePhone (cycleToNext s) = some "1") := by
  refine ⟨?_, ?_, ?_, ?_⟩
  · intro h
    rw [cycleToNext_eq_of_none s h]
    show (togglePhone s "1").activeCard = some "1"
    refine togglePhone_activeCard_of_other s (by decide) hmc ?_
    rw [h]
    exact fun hc => Option.noConfusion hc
  · intro h
    rw [cycleToNext_eq_of_one s h]
    show (togglePhone s "2").activeCard = some "2"
    refine togglePhone_activeCard_of_other s (by decide) hmc ?_
    rw [h]
    intro hc
    exact absurd (Option.some_inj.mp hc) (by decide)
  · intro h
    rw [cycleToNext_eq_of_two s h]
    show (togglePhone s "3").activeCard = some "3"
    refine togglePhone_activeCard_of_other s (by decide) hmc ?_
    rw [h]
    intro hc
    exact absurd (Option.some_inj.mp hc) (by decide)
  · intro h
    rw [cycleToNext_eq_of_three s h]
    show (togglePhone s "1").activeCard = some "1"
    refine togglePhone_activeCard_of_other s (by decide) hmc ?_
    rw [h]
    intro hc
    exact absurd (Option.some_inj.mp hc) (by decide)

theorem claim7_witness :
    (demoState.activeCard = none → getActivePhone (cycleToNext demoState) = some "1") ∧
    (demoState.activeCard = some "1" → getActivePhone (cycleToNext demoState) = some "2") ∧
    (demoState.activeCard = some "2" → getActivePhone (cycleToNext demoState) = some "3") ∧
    (demoState.activeCard = some "3" → getActivePhone (cycleToNext demoState) = some "1") :=
  claim7_cycleToNext demoState markerConsistent_demoState

/-- C8: on a constructed instance after any sequence of input events,
an outside click (target not inside a `.phone-stack-container`) while
`Active(X)` transitions to Idle and emits a `deactivated` notification
when outside-click dismissal was enabled at construction; with
dismissal disabled the document listener was never bound, so an
outside click changes nothing at all. -/
theorem claim8_outside_click (cd : ContainerData) (cfg : Config) (ops : List Op)
    (e : ClickEvent) (X : String)
    (hcards : cd.phoneCardCount ≠ 0) (he : e.insideStackContainer = false) :
    (cfg.enableClickOutside = true →
      (run (constructState cd cfg) ops).activeCard = some X →
      getActivePhone (documentClick (run (constructState cd cfg) ops) e) = none ∧
      (documentClick (run (constructState cd cfg) ops) e).events =
        (run (constructState cd cfg) ops).events ++ [.phoneDeactivated]) ∧
    (cfg.enableClickOutside = false →
      documentClick (run (constructState cd cfg) ops) e = run (constructState cd cfg) ops) := by
  have hl : (run (constructState cd cfg) ops).listeners.contains
      ⟨.documentTarget, "click", .bound .handleClickOutside 0⟩ = cfg.enableClickOutside := by
    rw [run_listeners, constructState_doc_listener cd cfg hcards]
  constructor
  · intro hon hact
    have hcl : (run (constructState cd cfg) ops).listeners.contains
        ⟨.documentTarget, "click", .bound .handleClickOutside 0⟩ = true := by
      rw [hl, hon]
    unfold documentClick
    rw [if_pos hcl]
    unfold handleClickOutside
    have hcond : (!e.insideStackContainer &&
        (run (constructState cd cfg) ops).activeCard.isSome) = true := by
      rw [he, hact]
      rfl
    rw [if_pos hcond]
    exact ⟨deactivateAll_activeCard _, deactivateAll_events _⟩
  · intro hoff
    have hcl : (run (constructState cd cfg) ops).listeners.contains
        ⟨.documentTarget, "click", .bound .handleClickOutside 0⟩ = false := by
      rw [hl, hoff]
    unfold documentClick
    have hne : ¬((run (constructState cd cfg) ops).listeners.contains
        ⟨.documentTarget, "click", .bound .handleClickOutside 0⟩ = true) := by
      rw [hcl]
      exact Bool.false_ne_true
    rw [if_neg hne]

theorem claim8_witness :
    getActivePhone (documentClick
      (run (constructState demoContainer defaultConfig) [.toggle "1"]) ⟨false⟩) = none ∧
    documentClick (run (constructState demoContainer noDismissConfig) [.toggle "1"]) ⟨false⟩ =
      run (constructState demoContainer noDismissConfig) [.toggle "1"] :=
  ⟨((claim8_outside_click demoContainer defaultConfig [.toggle "1"] ⟨false⟩ "1"
      (by decide) rfl).1 rfl rfl).1,
   (claim8_outside_click demoContainer noDismissConfig [.toggle "1"] ⟨false⟩ "1"
      (by decide) rfl).2 rfl⟩

/-- C9: after every completed transition — a `togglePhone` with an item
identifier, or a `deactivateAll` (the only two state-changing paths;
`activatePhone`, `cycleToNext`, the input handlers and outside-click
dismissal all route through them) — the container's presentation marker
and every overlay's `aria-pressed`/`aria-expanded` flag agree with the
stored active selection: the flag is `"true"` exactly on the overlay
whose identifier equals the selection, `"false"` on all overlays when
Idle, and each marker sits on the container exactly when its item is
the selection. -/
theorem claim9_state_sync (s : State) (id : String)
    (hwf : wellFormedOverlays s) (hid : id ∈ getPhoneNumbers) :
    (markerConsistent (togglePhone s id) ∧ ariaConsistent (togglePhone s id)) ∧
    (markerConsistent (deactivateAll s) ∧ ariaConsistent (deactivateAll s)) :=
  ⟨⟨markerConsistent_togglePhone s hid, ariaConsistent_togglePhone s id hwf⟩,
   ⟨markerConsistent_deactivateAll s, ariaConsistent_deactivateAll s hwf⟩⟩

theorem claim9_witness :
    (markerConsistent (togglePhone demoState "1") ∧ ariaConsistent (togglePhone demoState "1")) ∧
    (markerConsistent (deactivateAll demoState) ∧ ariaConsistent (deactivateAll demoState)) :=
  claim9_state_sync demoState "1" rfl (by decide)

/-- C10: `isPhoneActive(x)` returns true exactly when
`getActivePhone()` is the string form of `x` (its argument is coerced
with `toString`), so the number and string forms of an identifier are
accepted equivalently. -/
theorem claim10_isPhoneActive_iff (s : State) (x : JSValue) :
    (isPhoneActive s x = true ↔ getActivePhone s = some x.toString) ∧
    (∀ n : Int, isPhoneActive s (.num n) =
      isPhoneActive s (.str (ToString.toString n))) := by
  constructor
  · exact beq_iff_eq
  · intro n
    rfl

end StackedPhones
